import Mathlib

/-!
Shallow embedding of the myblobfs FUSE driver (src/src/myblobfs.c, the
corrected revision of the two near-duplicate sources; src/myblobfs.c is the
superseded older revision).

C strings are modelled as `List Char` holding the bytes before the NUL
terminator.  The MySQL query-execution capability is modelled abstractly by a
`Db` record: for each of the three query shapes it yields the first row's
single value (`none` = the query matched no row).  Heap-allocation outcomes
and the `mysql_use_result` handle being non-NULL are modelled by the boolean
fields of `Env`, since the C code branches on exactly those four events.
Error returns are the same negated errno integers the C code returns, carried
in the error channel of `Except Int`.
-/

namespace MyBlobFS

/-- C locale `isdigit` on ASCII bytes: true iff the byte is in `'0'..'9'`. -/
def isdigit (c : Char) : Bool := 48 ≤ c.toNat && c.toNat ≤ 57

/-- C locale `isalpha` on ASCII bytes. -/
def isalpha (c : Char) : Bool :=
  (97 ≤ c.toNat && c.toNat ≤ 122) || (65 ≤ c.toNat && c.toNat ≤ 90)

/-- C locale `isalnum` on ASCII bytes. -/
def isalnum (c : Char) : Bool := isalpha c || isdigit c

/-- C locale `isspace` on ASCII bytes: space, tab, newline, vertical tab,
form feed, carriage return. -/
def isspace (c : Char) : Bool := c.toNat = 32 || (9 ≤ c.toNat && c.toNat ≤ 13)

/-- `is_uint` from src/src/myblobfs.c lines 143-161: the empty string is
rejected, then every character must satisfy `isdigit`. -/
def is_uint (str : List Char) : Bool :=
  if str.length = 0 then false
  else str.all fun c => isdigit c

/-- `is_valid_ident` from src/src/myblobfs.c lines 167-185: the empty string
is rejected, then every character must satisfy `isalnum` or be an
underscore (`!isalnum(str[i]) && (str[i] != '_')` causes rejection). -/
def is_valid_ident (str : List Char) : Bool :=
  if str.length = 0 then false
  else str.all fun c => isalnum c || c == '_'

/-- `is_valid_path` from src/src/myblobfs.c lines 192-210.  `path[0]` on the
empty C string reads the NUL terminator, hence the default `Char.ofNat 0`. -/
def is_valid_path (path : List Char) : Bool :=
  if path = ['/'] then true
  else if path.headD (Char.ofNat 0) ≠ '/' then false
  else if is_uint path.tail = false then false
  else true

/-- C `atoi` digit-accumulation loop: consume leading decimal digits,
stopping at the first non-digit. -/
def atoiLoop : List Char → Int → Int
  | [], acc => acc
  | c :: cs, acc =>
      if isdigit c then atoiLoop cs (acc * 10 + ((c.toNat : Int) - 48))
      else acc

/-- C `atoi`: skip leading whitespace, consume an optional sign, then
accumulate leading decimal digits; a string with no leading digits parses
to 0.  Used at src/src/myblobfs.c line 290 (`st_size = atoi(row[0])`). -/
def atoi (s : List Char) : Int :=
  match s.dropWhile isspace with
  | '-' :: rest => - atoiLoop rest 0
  | '+' :: rest => atoiLoop rest 0
  | s1 => atoiLoop s1 0

/-- Linux errno value for ENOENT. -/
def ENOENT : Int := 2

/-- Linux errno value for EAGAIN. -/
def EAGAIN : Int := 11

/-- Linux errno value for ENOMEM. -/
def ENOMEM : Int := 12

/-- Linux errno value for EISDIR. -/
def EISDIR : Int := 21

/-- Linux errno value for EROFS. -/
def EROFS : Int := 30

/-- POSIX directory file-type bits of `st_mode`. -/
def S_IFDIR : Nat := 0o040000

/-- POSIX regular-file file-type bits of `st_mode`. -/
def S_IFREG : Nat := 0o100000

/-- POSIX open flag: read-only access (value 0). -/
def O_RDONLY : Nat := 0

/-- POSIX open flag: write-only access (value 1). -/
def O_WRONLY : Nat := 1

/-- POSIX open flag: read-write access (value 2). -/
def O_RDWR : Nat := 2

/-- Result classification of a path, per the dispatcher structure of the C
source: every operation first calls `is_valid_path`, then distinguishes the
root (`strcmp(path, "/") == 0`) from a row key (`path + 1`). -/
inductive Resolved where
  | rootDir : Resolved
  | rowKey : List Char → Resolved
  | invalid : Resolved
deriving DecidableEq

/-- The path resolver as realised by the C dispatchers: `is_valid_path`
first, then the root test, else the digit suffix `path + 1` is the row
key.  Total by construction. -/
def resolve (p : List Char) : Resolved :=
  if is_valid_path p = false then Resolved.invalid
  else if p = ['/'] then Resolved.rootDir
  else Resolved.rowKey p.tail

/-- Abstract model of the query-execution capability: for each query shape
and row key, the first fetched row's single value, or `none` when the query
matches no row.  `listResult` is the full name-column listing. -/
structure Db where
  sizeResult : List Char → Option (List Char)
  existsResult : List Char → Option (List Char)
  contentResult : List Char → Option (List Char)
  listResult : List (List Char)

/-- Outcomes of the four fallible steps each C operation branches on:
the `filename` malloc, the `my_data_field_size` malloc (getattr only),
the `query` malloc, and `mysql_use_result` returning a handle. -/
structure Env where
  filenameAlloc : Bool
  sizeFpAlloc : Bool
  queryAlloc : Bool
  resOk : Bool

/-- All allocations succeed and the query yields a result handle. -/
def envAllOk : Env :=
  { filenameAlloc := true, sizeFpAlloc := true, queryAlloc := true, resOk := true }

/-- The `my_data_field_size` buffer allocation fails, everything else is
fine (exercises src/src/myblobfs.c line 317). -/
def envNoSizeFp : Env :=
  { filenameAlloc := true, sizeFpAlloc := false, queryAlloc := true, resOk := true }

/-- The `query` buffer allocation fails, everything else is fine. -/
def envNoQueryAlloc : Env :=
  { filenameAlloc := true, sizeFpAlloc := true, queryAlloc := false, resOk := true }

/-- `mysql_use_result` returns NULL, everything else is fine. -/
def envNoRes : Env :=
  { filenameAlloc := true, sizeFpAlloc := true, queryAlloc := true, resOk := false }

/-- The fields of `struct stat` that the C code fills in. -/
structure Stat where
  st_mode : Nat
  st_nlink : Nat
  st_size : Int
  st_uid : Nat
  st_gid : Nat
deriving DecidableEq

/-- `my_getattr` from src/src/myblobfs.c lines 217-329.  `uid`/`gid` stand
for `getuid()`/`getgid()`.  The error ints are exactly the C returns; note
the positive `ENOENT` (no minus sign) on the `my_data_field_size`
allocation-failure branch, line 317 of the source. -/
def my_getattr (env : Env) (db : Db) (uid gid : Nat) (path : List Char) :
    Except Int Stat :=
  if is_valid_path path = false then Except.error (-ENOENT)
  else if path = ['/'] then
    Except.ok { st_mode := S_IFDIR + 0o555, st_nlink := 2, st_size := 0,
                st_uid := uid, st_gid := gid }
  else if env.filenameAlloc = false then Except.error (-ENOENT)
  else if env.sizeFpAlloc = false then Except.error ENOENT
  else if env.queryAlloc = false then Except.error (-ENOENT)
  else if env.resOk = false then Except.error (-ENOENT)
  else
    match db.sizeResult path.tail with
    | none => Except.error (-ENOENT)
    | some v =>
        Except.ok { st_mode := S_IFREG + 0o555, st_nlink := 1,
                    st_size := atoi v, st_uid := uid, st_gid := gid }

/-- `my_readdir` from src/src/myblobfs.c lines 338-399.  The first component
is the sequence of entries delivered through `filler`, in order; the second
is the returned int.  "." and ".." are passed to `filler` before the query
buffer is allocated or the query executed, so they are present in the
output even on the two failure branches. -/
def my_readdir (env : Env) (db : Db) (path : List Char) :
    List (List Char) × Int :=
  if path ≠ ['/'] then ([], -ENOENT)
  else if env.queryAlloc = false then ([['.'], ['.', '.']], -ENOMEM)
  else if env.resOk = false then ([['.'], ['.', '.']], -ENOENT)
  else ([['.'], ['.', '.']] ++ db.listResult, 0)

/-- `my_open` from src/src/myblobfs.c lines 405-493.  The C guard
`fi->flags & O_RDONLY == 0` parses as `fi->flags & (O_RDONLY == 0)`,
i.e. `fi->flags & 1`, because `==` binds tighter than `&` in C; the
embedding reproduces that bit test as `flags % 2 = 1`. -/
def my_open (env : Env) (db : Db) (path : List Char) (flags : Nat) :
    Except Int Unit :=
  if is_valid_path path = false then Except.error (-ENOENT)
  else if flags % 2 = 1 then Except.error (-EROFS)
  else if path = ['/'] then Except.ok ()
  else if env.filenameAlloc = false then Except.error (-ENOMEM)
  else if env.queryAlloc = false then Except.error (-ENOMEM)
  else if env.resOk = false then Except.error (-EAGAIN)
  else
    match db.existsResult path.tail with
    | none => Except.error (-ENOENT)
    | some _ => Except.ok ()

/-- `my_read` from src/src/myblobfs.c lines 500-593.  On success the window
of bytes copied into `buf` is returned (its length is the int the C code
returns); on failure the negated errno.  The clamp at lines 552-564: if
`offset <= len` the size is clamped to `len - offset` when it overshoots,
and `memcpy(buf, row[0] + offset, size)` copies that window; if
`offset > len` zero bytes are returned. -/
def my_read (env : Env) (db : Db) (path : List Char) (offset size : Nat) :
    Except Int (List Char) :=
  if is_valid_path path = false then Except.error (-ENOENT)
  else if path = ['/'] then Except.error (-EISDIR)
  else if env.filenameAlloc = false then Except.error (-ENOMEM)
  else if env.queryAlloc = false then Except.error (-ENOMEM)
  else if env.resOk = false then Except.error (-ENOMEM)
  else
    match db.contentResult path.tail with
    | none => Except.error (-ENOENT)
    | some content =>
        if offset ≤ content.length then
          Except.ok ((content.drop offset).take
            (if offset + size > content.length then content.length - offset
             else size))
        else Except.ok []

/-- The content bytes of the sample row used for concrete evaluations. -/
def hello : List Char := ['h', 'e', 'l', 'l', 'o']

/-- Sample database: one row with key "1", content "hello" (length 5). -/
def dbHello : Db where
  sizeResult := fun k => if k = ['1'] then some ['5'] else none
  existsResult := fun k => if k = ['1'] then some ['1'] else none
  contentResult := fun k => if k = ['1'] then some hello else none
  listResult := [['1']]

/-- Sample database whose size query yields the unparsable value "abc" for
key "5". -/
def dbBadLen : Db where
  sizeResult := fun k => if k = ['5'] then some ['a', 'b', 'c'] else none
  existsResult := fun _ => none
  contentResult := fun _ => none
  listResult := []

/-- Characterisation of `is_uint`: non-empty and all decimal digits. -/
theorem is_uint_iff (s : List Char) :
    is_uint s = true ↔ s ≠ [] ∧ ∀ c ∈ s, isdigit c = true := by
  cases s with
  | nil => simp [is_uint]
  | cons c cs => simp [is_uint, List.all_eq_true]

/-- Characterisation of `is_valid_path`: exactly the root, or a slash
followed by a digit string accepted by `is_uint`. -/
theorem is_valid_path_iff (p : List Char) :
    is_valid_path p = true ↔
      p = ['/'] ∨ ∃ d, p = '/' :: d ∧ is_uint d = true := by
  cases p with
  | nil => simp [is_valid_path]
  | cons c cs =>
    by_cases hc : c = '/'
    · subst hc
      cases cs with
      | nil => simp [is_valid_path]
      | cons b bs =>
        have hne : ('/' : Char) :: b :: bs ≠ ['/'] := by simp
        cases hu : is_uint (b :: bs) with
        | true => simp [is_valid_path, hu]
        | false => simp [is_valid_path, hu]
    · have h1 : c :: cs ≠ ['/'] := by
        intro h
        injection h with hh _
        exact hc hh
      simp [is_valid_path, h1, hc]

/-- `resolve` yields `rootDir` exactly on the literal root path. -/
theorem resolve_rootDir_iff (p : List Char) :
    resolve p = Resolved.rootDir ↔ p = ['/'] := by
  constructor
  · intro h
    cases hv : is_valid_path p with
    | false => simp [resolve, hv] at h
    | true =>
      by_cases hr : p = ['/']
      · exact hr
      · simp [resolve, hv, hr] at h
  · intro h
    subst h
    simp [resolve, is_valid_path]

/-- `resolve` yields `rowKey d` exactly when the path is a slash followed by
the non-empty all-digit segment `d`. -/
theorem resolve_rowKey_iff (p d : List Char) :
    resolve p = Resolved.rowKey d ↔
      p = '/' :: d ∧ d ≠ [] ∧ ∀ c ∈ d, isdigit c = true := by
  constructor
  · intro h
    cases hv : is_valid_path p with
    | false => simp [resolve, hv] at h
    | true =>
      by_cases hr : p = ['/']
      · subst hr
        simp [resolve, is_valid_path] at h
      · simp [resolve, hv, hr] at h
        rcases (is_valid_path_iff p).mp hv with h1 | ⟨e, he, hu⟩
        · exact absurd h1 hr
        · subst he
          simp at h
          subst h
          rcases (is_uint_iff e).mp hu with ⟨hne, hdig⟩
          exact ⟨rfl, hne, hdig⟩
  · rintro ⟨hp, hne, hdig⟩
    subst hp
    have hu : is_uint d = true := (is_uint_iff d).mpr ⟨hne, hdig⟩
    have hv : is_valid_path ('/' :: d) = true :=
      (is_valid_path_iff _).mpr (Or.inr ⟨d, rfl, hu⟩)
    have hr : ('/' :: d) ≠ ['/'] := by simpa using hne
    simp [resolve, hv, hr]

/-- `resolve` yields `invalid` exactly when `is_valid_path` rejects. -/
theorem resolve_invalid_iff (p : List Char) :
    resolve p = Resolved.invalid ↔ is_valid_path p = false := by
  cases hv : is_valid_path p with
  | false => simp [resolve, hv]
  | true =>
    by_cases hr : p = ['/']
    · subst hr
      simp [resolve, is_valid_path]
    · simp [resolve, hv, hr]

/-- Claim C1: for every string s, the identifier validator
`is_valid_ident s` returns true if and only if s is non-empty and every
character of s is alphanumeric or the underscore character. -/
theorem is_valid_ident_spec (s : List Char) :
    is_valid_ident s = true ↔ s ≠ [] ∧ ∀ c ∈ s, isalnum c = true ∨ c = '_' := by
  cases s with
  | nil => simp [is_valid_ident]
  | cons c cs => simp [is_valid_ident, List.all_eq_true]

/-- Claim C2: for every string s, `is_uint s` returns true if and only if s
is non-empty and every character of s is a decimal digit; in particular
`is_uint ""` is false, `is_uint "12a"` is false, and `is_uint "007"` is
true. -/
theorem is_uint_spec :
    (∀ s : List Char, is_uint s = true ↔ s ≠ [] ∧ ∀ c ∈ s, isdigit c = true) ∧
    is_uint [] = false ∧
    is_uint ['1', '2', 'a'] = false ∧
    is_uint ['0', '0', '7'] = true :=
  ⟨is_uint_iff, by decide, by decide, by decide⟩

/-- Claim C3: the path resolver classifies p as the root directory iff
p = "/", as a row key iff p is "/" followed by one or more decimal digits
and nothing else, and as invalid otherwise; "", "/abc", "/1/2" and "//1"
are all invalid; the resolver is total (it is a total function that only
classifies, never fails). -/
theorem resolve_spec :
    (∀ p : List Char, resolve p = Resolved.rootDir ↔ p = ['/']) ∧
    (∀ p d : List Char, resolve p = Resolved.rowKey d ↔
      p = '/' :: d ∧ d ≠ [] ∧ ∀ c ∈ d, isdigit c = true) ∧
    (∀ p : List Char, resolve p = Resolved.invalid ↔
      ¬ (p = ['/'] ∨ ∃ d, p = '/' :: d ∧ d ≠ [] ∧ ∀ c ∈ d, isdigit c = true)) ∧
    resolve [] = Resolved.invalid ∧
    resolve ['/', 'a', 'b', 'c'] = Resolved.invalid ∧
    resolve ['/', '1', '/', '2'] = Resolved.invalid ∧
    resolve ['/', '/', '1'] = Resolved.invalid := by
  refine ⟨resolve_rootDir_iff, resolve_rowKey_iff, ?_, by decide, by decide,
    by decide, by decide⟩
  intro p
  rw [resolve_invalid_iff]
  constructor
  · intro hv hval
    have : is_valid_path p = true := by
      rcases hval with h | ⟨d, hd, hne, hdig⟩
      · exact (is_valid_path_iff p).mpr (Or.inl h)
      · exact (is_valid_path_iff p).mpr
          (Or.inr ⟨d, hd, (is_uint_iff d).mpr ⟨hne, hdig⟩⟩)
    rw [this] at hv
    cases hv
  · intro hval
    cases hv : is_valid_path p with
    | false => rfl
    | true =>
      exfalso
      apply hval
      rcases (is_valid_path_iff p).mp hv with h | ⟨d, hd, hu⟩
      · exact Or.inl h
      · rcases (is_uint_iff d).mp hu with ⟨hne, hdig⟩
        exact Or.inr ⟨d, hd, hne, hdig⟩

/-- Claim C4: for row content of length L, `my_read` on a present row with
all allocations succeeding returns the window
`(content.drop offset).take (min size (L - offset))`; its length is
`min size (L - offset)` (which, `offset ≤ L` given, is
`max 0 (min size (L - offset))` in Nat arithmetic), the window is empty
when `offset > L`, the window never holds more than `L - offset` bytes, and
it never reaches past position L. -/
theorem my_read_clamp (db : Db) (p : List Char) (offset size : Nat)
    (content : List Char)
    (hv : is_valid_path p = true) (hr : p ≠ ['/'])
    (hrow : db.contentResult p.tail = some content) :
    my_read envAllOk db p offset size =
      Except.ok ((content.drop offset).take (min size (content.length - offset))) ∧
    ((content.drop offset).take (min size (content.length - offset))).length =
      min size (content.length - offset) ∧
    (content.length < offset →
      (content.drop offset).take (min size (content.length - offset)) = []) ∧
    min size (content.length - offset) ≤ content.length - offset ∧
    (offset ≤ content.length →
      offset + min size (content.length - offset) ≤ content.length) := by
  refine ⟨?_, ?_, ?_, Nat.min_le_right _ _, ?_⟩
  · simp only [my_read, hv, envAllOk]
    rw [if_neg (by simp), if_neg hr, if_neg (by simp), if_neg (by simp),
      if_neg (by simp), hrow]
    dsimp only
    by_cases hoff : offset ≤ content.length
    · rw [if_pos hoff]
      congr 2
      by_cases hsz : offset + size > content.length
      · rw [if_pos hsz, Nat.min_eq_right (by omega)]
      · rw [if_neg hsz, Nat.min_eq_left (by omega)]
    · rw [if_neg hoff]
      have h0 : content.length - offset = 0 := by omega
      simp [h0]
  · rw [List.length_take, List.length_drop]
    exact Nat.min_eq_left (Nat.min_le_right _ _)
  · intro hlt
    have h0 : content.length - offset = 0 := by omega
    simp [h0]
  · intro hle
    have := Nat.min_le_right size (content.length - offset)
    omega

/-- Claim C4 witness: reading the present row "1" (content "hello") with
offset 0 and size 10 returns the full 5-byte content. -/
theorem my_read_clamp_witness :
    my_read envAllOk dbHello ['/', '1'] 0 10 = Except.ok hello := by
  have h := (my_read_clamp dbHello ['/', '1'] 0 10 hello (by decide) (by decide)
    rfl).1
  simpa using h

/-- Claim C6: `my_read` returns -ENOENT on a structurally invalid path,
-EISDIR on the root directory, and -ENOENT on a row key whose content query
matches no row. -/
theorem my_read_error_spec (env : Env) (db : Db) (p : List Char)
    (offset size : Nat) :
    (is_valid_path p = false → my_read env db p offset size = Except.error (-ENOENT)) ∧
    (p = ['/'] → my_read env db p offset size = Except.error (-EISDIR)) ∧
    (is_valid_path p = true → p ≠ ['/'] → db.contentResult p.tail = none →
      my_read envAllOk db p offset size = Except.error (-ENOENT)) := by
  refine ⟨?_, ?_, ?_⟩
  · intro h
    simp [my_read, h]
  · intro h
    subst h
    simp [my_read, is_valid_path]
  · intro hv hr hrow
    simp only [my_read, hv, envAllOk]
    rw [if_neg (by simp), if_neg hr, if_neg (by simp), if_neg (by simp),
      if_neg (by simp), hrow]

/-- Claim C6 witness: the three error outcomes at concrete inputs — an
invalid path "/a", the root "/", and the absent row key "/9". -/
theorem my_read_error_spec_witness :
    my_read envAllOk dbHello ['/', 'a'] 0 1 = Except.error (-ENOENT) ∧
    my_read envAllOk dbHello ['/'] 0 1 = Except.error (-EISDIR) ∧
    my_read envAllOk dbHello ['/', '9'] 0 1 = Except.error (-ENOENT) :=
  ⟨(my_read_error_spec envAllOk dbHello ['/', 'a'] 0 1).1 (by decide),
   (my_read_error_spec envAllOk dbHello ['/'] 0 1).2.1 rfl,
   (my_read_error_spec envAllOk dbHello ['/', '9'] 0 1).2.2 (by decide)
     (by decide) rfl⟩

/-- Claim C5 counterexample: at the present row "1" (size value "5"),
`my_getattr` fills the file's `st_mode` with permission bits 0555
(read+execute for all), not the read-only-for-all bits 0444 the claim
states for regular files. -/
theorem my_getattr_perm_counterexample :
    my_getattr envAllOk dbHello 1000 1000 ['/', '1'] =
      Except.ok { st_mode := S_IFREG + 0o555, st_nlink := 1, st_size := 5,
                  st_uid := 1000, st_gid := 1000 } ∧
    S_IFREG + 0o555 ≠ S_IFREG + 0o444 :=
  ⟨rfl, by decide⟩

/-- Claim C5 (amended): `my_getattr` returns -ENOENT on an invalid path;
on the root it returns directory metadata (type directory, link count 2,
read+execute for all, owner = process uid/gid); on a row key with no
matching row it returns -ENOENT; and on a matching row it returns file
metadata (type regular, link count 1, length = the atoi-parsed size,
permission read+execute for all, owner = process uid/gid). -/
theorem my_getattr_spec (db : Db) (uid gid : Nat) (p : List Char) :
    (is_valid_path p = false →
      my_getattr envAllOk db uid gid p = Except.error (-ENOENT)) ∧
    (p = ['/'] →
      my_getattr envAllOk db uid gid p =
        Except.ok { st_mode := S_IFDIR + 0o555, st_nlink := 2, st_size := 0,
                    st_uid := uid, st_gid := gid }) ∧
    (is_valid_path p = true → p ≠ ['/'] → db.sizeResult p.tail = none →
      my_getattr envAllOk db uid gid p = Except.error (-ENOENT)) ∧
    (∀ v, is_valid_path p = true → p ≠ ['/'] → db.sizeResult p.tail = some v →
      my_getattr envAllOk db uid gid p =
        Except.ok { st_mode := S_IFREG + 0o555, st_nlink := 1,
                    st_size := atoi v, st_uid := uid, st_gid := gid }) := by
  refine ⟨?_, ?_, ?_, ?_⟩
  · intro h
    simp [my_getattr, h]
  · intro h
    subst h
    simp [my_getattr, is_valid_path]
  · intro hv hr hrow
    simp only [my_getattr, hv, envAllOk]
    rw [if_neg (by simp), if_neg hr, if_neg (by simp), if_neg (by simp),
      if_neg (by simp), if_neg (by simp), hrow]
  · intro v hv hr hrow
    simp only [my_getattr, hv, envAllOk]
    rw [if_neg (by simp), if_neg hr, if_neg (by simp), if_neg (by simp),
      if_neg (by simp), if_neg (by simp), hrow]

/-- Claim C5 witness: the amended theorem applied at the root path and at
the present row "1". -/
theorem my_getattr_spec_witness :
    my_getattr envAllOk dbHello 1000 1000 ['/'] =
      Except.ok { st_mode := S_IFDIR + 0o555, st_nlink := 2, st_size := 0,
                  st_uid := 1000, st_gid := 1000 } ∧
    my_getattr envAllOk dbHello 1000 1000 ['/', '1'] =
      Except.ok { st_mode := S_IFREG + 0o555, st_nlink := 1,
                  st_size := atoi ['5'], st_uid := 1000, st_gid := 1000 } :=
  ⟨(my_getattr_spec dbHello 1000 1000 ['/']).2.1 rfl,
   (my_getattr_spec dbHello 1000 1000 ['/', '1']).2.2.2 ['5'] (by decide)
     (by decide) rfl⟩

/-- Claim C7: the C guard `fi->flags & O_RDONLY == 0` parses as
`fi->flags & 1` (precedence slip), so a read-write open (O_RDWR = 2, bit 0
clear) of a present row succeeds instead of returning -EROFS, while a
write-only open (O_WRONLY = 1) is rejected with -EROFS and a read-only
open (O_RDONLY = 0) succeeds.  This contradicts the function's own stated
intent of disallowing all write requests. -/
theorem my_open_rdwr_slip :
    my_open envAllOk dbHello ['/', '1'] O_RDWR = Except.ok () ∧
    my_open envAllOk dbHello ['/', '1'] O_WRONLY = Except.error (-EROFS) ∧
    my_open envAllOk dbHello ['/', '1'] O_RDONLY = Except.ok () :=
  ⟨rfl, rfl, rfl⟩

/-- Claim C8 counterexample: with the size query returning the unparsable
value "abc" for row key "5", `my_getattr` does not degrade to -ENOENT: it
reports the row as a present regular file of size `atoi "abc" = 0`. -/
theorem my_getattr_malformed_counterexample :
    my_getattr envAllOk dbBadLen 0 0 ['/', '5'] =
      Except.ok { st_mode := S_IFREG + 0o555, st_nlink := 1, st_size := 0,
                  st_uid := 0, st_gid := 0 } ∧
    my_getattr envAllOk dbBadLen 0 0 ['/', '5'] ≠ Except.error (-ENOENT) := by
  constructor
  · rfl
  · intro h
    rw [show my_getattr envAllOk dbBadLen 0 0 ['/', '5'] =
        Except.ok { st_mode := S_IFREG + 0o555, st_nlink := 1, st_size := 0,
                    st_uid := 0, st_gid := 0 } from rfl] at h
    cases h

/-- Claim C8 (amended): a malformed (not-all-digits) size value never makes
`my_getattr` fail or crash, but it is not treated as an absent row either:
the row is reported present with `st_size` equal to the C `atoi` parse of
the value (0 when the value has no leading digits). -/
theorem my_getattr_malformed_spec (db : Db) (uid gid : Nat) (p v : List Char)
    (hv : is_valid_path p = true) (hr : p ≠ ['/'])
    (hrow : db.sizeResult p.tail = some v)
    (hmal : v.all isdigit = false) :
    my_getattr envAllOk db uid gid p =
      Except.ok { st_mode := S_IFREG + 0o555, st_nlink := 1,
                  st_size := atoi v, st_uid := uid, st_gid := gid } ∧
    my_getattr envAllOk db uid gid p ≠ Except.error (-ENOENT) := by
  have hok : my_getattr envAllOk db uid gid p =
      Except.ok { st_mode := S_IFREG + 0o555, st_nlink := 1,
                  st_size := atoi v, st_uid := uid, st_gid := gid } := by
    simp only [my_getattr, hv, envAllOk]
    rw [if_neg (by simp), if_neg hr, if_neg (by simp), if_neg (by simp),
      if_neg (by simp), if_neg (by simp), hrow]
  refine ⟨hok, ?_⟩
  intro h
  rw [hok] at h
  cases h

/-- Claim C8 witness: the amended theorem applied at row key "5" with the
malformed size value "abc". -/
theorem my_getattr_malformed_spec_witness :
    my_getattr envAllOk dbBadLen 7 7 ['/', '5'] =
      Except.ok { st_mode := S_IFREG + 0o555, st_nlink := 1,
                  st_size := atoi ['a', 'b', 'c'], st_uid := 7, st_gid := 7 } ∧
    my_getattr envAllOk dbBadLen 7 7 ['/', '5'] ≠ Except.error (-ENOENT) :=
  my_getattr_malformed_spec dbBadLen 7 7 ['/', '5'] ['a', 'b', 'c']
    (by decide) (by decide) rfl (by decide)

/-- Claim C9: when the `my_data_field_size` buffer allocation fails,
`my_getattr` on the valid row path "/1" returns the POSITIVE value ENOENT
(the source writes `result = ENOENT;` without the minus sign at
src/src/myblobfs.c line 317), contradicting the stated convention that
every error is a negated standard OS error code. -/
theorem my_getattr_positive_errno :
    my_getattr envNoSizeFp dbHello 0 0 ['/', '1'] = Except.error ENOENT ∧
    (0 : Int) < ENOENT :=
  ⟨rfl, by decide⟩

/-- Claim C10: on the root path, `my_readdir` delivers "." and ".." to the
filler before the listing query is built or executed, so both entries are
in the delivered output even when the query-buffer allocation fails
(return -ENOMEM) or query execution yields no result handle (return
-ENOENT). -/
theorem my_readdir_dots_on_failure (env : Env) (db : Db) :
    ((my_readdir env db ['/']).1.take 2 = [['.'], ['.', '.']]) ∧
    (env.queryAlloc = false →
      my_readdir env db ['/'] = ([['.'], ['.', '.']], -ENOMEM)) ∧
    (env.queryAlloc = true → env.resOk = false →
      my_readdir env db ['/'] = ([['.'], ['.', '.']], -ENOENT)) := by
  refine ⟨?_, ?_, ?_⟩
  · rcases env with ⟨fa, sa, qa, ro⟩
    cases qa <;> cases ro <;> simp [my_readdir]
  · intro h
    simp [my_readdir, h]
  · intro h1 h2
    simp [my_readdir, h1, h2]

/-- Claim C10 witness: a failing-allocation listing and a failing-execution
listing on "/" both still deliver exactly "." and "..". -/
theorem my_readdir_dots_witness :
    my_readdir envNoQueryAlloc dbHello ['/'] = ([['.'], ['.', '.']], -ENOMEM) ∧
    my_readdir envNoRes dbHello ['/'] = ([['.'], ['.', '.']], -ENOENT) :=
  ⟨(my_readdir_dots_on_failure envNoQueryAlloc dbHello).2.1 rfl,
   (my_readdir_dots_on_failure envNoRes dbHello).2.2 rfl rfl⟩

end MyBlobFS
